import Mathlib

/-!
Verification of the criteria-driven filtering pipeline of the
trading-strategy scraper (`multi_source_scraper_dynamic.py`) and of its
HTTP wrapper (`n8n_wrapper.py`).

Modelling conventions.  Python floats are modelled as exact rationals
(`ℚ`).  A Python dictionary entry is an `Option` value, `none` meaning the
key is absent.  A numeric criteria entry produced by
`DynamicCriteriaReader.parse_criteria` is therefore `Option (Option ℚ)`:
`none` when the settings key was absent, `some none` when the key was
present but its value failed the `float` parse (Python stores `None`),
and `some (some q)` for a parsed number.  Fallible Python code (an
uncaught `ValueError` from `float`) is modelled with `Except String`.
-/

namespace TradingScraper

/-- Characters treated as whitespace by Python `str.strip()` and by
`float()`s surrounding-whitespace tolerance (the ASCII whitespace set). -/
def isPySpace (c : Char) : Bool :=
  c == ' ' || c == '\t' || c == '\n' || c == '\r' || c == '\x0b' || c == '\x0c'

/-- Maximal leading run of characters satisfying `p`, with the rest. -/
def takeRun (p : Char → Bool) : List Char → List Char × List Char
  | [] => ([], [])
  | c :: cs =>
    if p c then
      let (run, rest) := takeRun p cs
      (c :: run, rest)
    else ([], c :: cs)

/-- Read a maximal run of decimal digits: accumulated value, number of
digits read, remaining characters. -/
def digitRun : List Char → ℕ → ℕ → ℕ × ℕ × List Char
  | [], acc, k => (acc, k, [])
  | c :: cs, acc, k =>
    if c.isDigit then digitRun cs (acc * 10 + (c.toNat - 48)) (k + 1)
    else (acc, k, c :: cs)

/-- Strip leading and trailing Python whitespace from a character list. -/
def stripChars (l : List Char) : List Char :=
  ((l.dropWhile isPySpace).reverse.dropWhile isPySpace).reverse

/-- Model of Python `float(str)` over the rationals, after whitespace
stripping: optional sign, decimal digits with optional fractional part
and optional decimal exponent.  Returns `none` where Python `float`
raises `ValueError`.  (`inf`/`nan` tokens and digit-group underscores
have no rational counterpart and never occur in this program's data;
they are outside the model.) -/
def pyFloatChars (cs0 : List Char) : Option ℚ :=
  let sgncs : ℤ × List Char :=
    match cs0 with
    | '+' :: t => (1, t)
    | '-' :: t => (-1, t)
    | _ => (1, cs0)
  let (ip, ik, cs2) := digitRun sgncs.2 0 0
  let fpcs : ℕ × ℕ × List Char :=
    match cs2 with
    | '.' :: t => digitRun t 0 0
    | _ => (0, 0, cs2)
  let (fp, fk, cs3) := fpcs
  if ik + fk = 0 then none
  else
    let num : ℤ := sgncs.1 * ((ip : ℤ) * 10 ^ fk + (fp : ℤ))
    let den : ℕ := 10 ^ fk
    match cs3 with
    | [] => some (mkRat num den)
    | c :: t =>
      if c == 'e' || c == 'E' then
        let et : Bool × List Char :=
          match t with
          | '+' :: u => (true, u)
          | '-' :: u => (false, u)
          | _ => (true, t)
        let (ev, ek, t3) := digitRun et.2 0 0
        if ek = 0 ∨ t3 ≠ [] then none
        else if et.1 then some (mkRat (num * 10 ^ ev) den)
        else some (mkRat num (den * 10 ^ ev))
      else none

/-- Python `float(s)` for a string `s`: `some q` on success, `none` where
Python raises `ValueError`. -/
def pyFloat (s : String) : Option ℚ :=
  pyFloatChars (stripChars s.toList)

/-- The `ValueError` message Python produces for a failing `float` call. -/
def floatError (raw : String) : String :=
  "could not convert string to float: " ++ raw

/-- The typed criteria mapping produced by
`DynamicCriteriaReader.parse_criteria`.  Each field mirrors one
recognized settings key (field names follow the Python key names). -/
structure Criteria where
  minCAGR : Option (Option ℚ)
  minSharpe : Option (Option ℚ)
  maxDrawdown : Option (Option ℚ)
  minWinRate : Option (Option ℚ)
  minTradesPerYear : Option (Option ℚ)
  backtestStartYear : Option (Option ℚ)
  backtestEndYear : Option (Option ℚ)
  youtubeEnabled : Option Bool
  optionAlphaEnabled : Option Bool
  quantConnectEnabled : Option Bool
  youtubeKeywords : Option String
  youtubeLanguage : Option String
  optionAlphaFilter : Option String
  quantConnectFilter : Option String
deriving DecidableEq

/-- The criteria value with every key absent. -/
def emptyCriteria : Criteria :=
  ⟨none, none, none, none, none, none, none, none, none, none,
   none, none, none, none⟩

/-- ASCII lowercasing of a string, modelling `str.lower()` on the ASCII
inputs this program handles. -/
def lowerStr (s : String) : String :=
  String.mk (s.toList.map Char.toLower)

/-- Python truthiness test of a boolean setting:
`value.lower() in ['y', 'yes', 'true', '1']`. -/
def truthyToken (s : String) : Bool :=
  lowerStr s == "y" || lowerStr s == "yes" || lowerStr s == "true" || lowerStr s == "1"

/-- `DynamicCriteriaReader.parse_criteria`: numeric fields go through
`float` with a caught `ValueError` stored as `None` (`some none` here);
boolean fields through the truthy-token list; string fields are stored
verbatim.  Keys absent from the settings mapping stay absent. -/
def parse_criteria (settings : String → Option String) : Criteria where
  minCAGR := (settings "Min CAGR (%)").map pyFloat
  minSharpe := (settings "Min Sharpe").map pyFloat
  maxDrawdown := (settings "Max Drawdown (%)").map pyFloat
  minWinRate := (settings "Min Win Rate (%)").map pyFloat
  minTradesPerYear := (settings "Min Trades Per Year").map pyFloat
  backtestStartYear := (settings "Backtest Start Year").map pyFloat
  backtestEndYear := (settings "Backtest End Year").map pyFloat
  youtubeEnabled := (settings "YouTube Enabled").map truthyToken
  optionAlphaEnabled := (settings "Option Alpha Enabled").map truthyToken
  quantConnectEnabled := (settings "QuantConnect Enabled").map truthyToken
  youtubeKeywords := settings "YouTube Keywords"
  youtubeLanguage := settings "YouTube Language"
  optionAlphaFilter := settings "Option Alpha Filter"
  quantConnectFilter := settings "QuantConnect Filter"

/-- The recognized numeric settings keys, in source order. -/
def numericFieldNames : List String :=
  ["Min CAGR (%)", "Min Sharpe", "Max Drawdown (%)", "Min Win Rate (%)",
   "Min Trades Per Year", "Backtest Start Year", "Backtest End Year"]

/-- Access a numeric criteria entry by its Python key name. -/
def numField (c : Criteria) : String → Option (Option ℚ)
  | "Min CAGR (%)" => c.minCAGR
  | "Min Sharpe" => c.minSharpe
  | "Max Drawdown (%)" => c.maxDrawdown
  | "Min Win Rate (%)" => c.minWinRate
  | "Min Trades Per Year" => c.minTradesPerYear
  | "Backtest Start Year" => c.backtestStartYear
  | "Backtest End Year" => c.backtestEndYear
  | _ => none

/-- The recognized string settings keys, in source order. -/
def stringFieldNames : List String :=
  ["YouTube Keywords", "YouTube Language", "Option Alpha Filter",
   "QuantConnect Filter"]

/-- Access a string criteria entry by its Python key name. -/
def strField (c : Criteria) : String → Option String
  | "YouTube Keywords" => c.youtubeKeywords
  | "YouTube Language" => c.youtubeLanguage
  | "Option Alpha Filter" => c.optionAlphaFilter
  | "QuantConnect Filter" => c.quantConnectFilter
  | _ => none

/-- One range check of `DynamicCriteriaReader.validate_criteria`: fires
only when the entry is present and truthy
(Python `if key in criteria and criteria[key]`), and appends its message
when the value is below 0 or above `hi`. -/
def vcheck (v : Option (Option ℚ)) (hi : ℚ) (msg : String) : List String :=
  match v with
  | some (some q) => if q ≠ 0 then (if q < 0 ∨ hi < q then [msg] else []) else []
  | _ => []

/-- The year checks of `validate_criteria`: run only when both year keys
are present and both values truthy; the ordering check and the range
check can each append one message. -/
def ycheck (s e : Option (Option ℚ)) : List String :=
  match s, e with
  | some (some sq), some (some eq) =>
    if sq ≠ 0 ∧ eq ≠ 0 then
      (if eq ≤ sq then ["Backtest Start Year must be before End Year"] else []) ++
      (if sq < 1990 ∨ 2030 < eq then ["Backtest years should be between 1990 and 2030"] else [])
    else []
  | _, _ => []

/-- `DynamicCriteriaReader.validate_criteria`: collects all violation
messages and returns `(len(errors) == 0, errors)`. -/
def validate_criteria (c : Criteria) : Bool × List String :=
  let errors :=
    vcheck c.minCAGR 500 "Min CAGR (%) should be between 0 and 500" ++
    vcheck c.minSharpe 10 "Min Sharpe should be between 0 and 10" ++
    vcheck c.maxDrawdown 100 "Max Drawdown (%) should be between 0 and 100" ++
    vcheck c.minWinRate 100 "Min Win Rate (%) should be between 0 and 100" ++
    vcheck c.minTradesPerYear 10000 "Min Trades Per Year should be between 0 and 10000" ++
    ycheck c.backtestStartYear c.backtestEndYear
  (errors.isEmpty, errors)

/-- The record built for each video in `MultiSourceScraper.scrape_youtube`.
Performance fields hold the strings returned by `_extract_metric`
(`""` when nothing was extracted), exactly as in the source. -/
structure StrategyRecord where
  no : ℕ
  strategyName : String
  link : String
  channel : String
  strategyType : String
  assetClass : String
  specificTickers : String
  marketRegime : String
  tradingHours : String
  claimedWinRate : String
  claimedCAGR : String
  claimedMaxDrawdown : String
  claimedSharpe : String
  description : String
  status : String
  passToClaude : String
deriving DecidableEq

/-- One lower-bound check of `MultiSourceScraper._meets_criteria`
(CAGR, Sharpe, win rate): skipped when the threshold entry is not truthy
(absent, `None`, or `0.0`) or the record's string is empty; a non-empty
string that fails the `float` parse raises, mirrored as `Except.error`. -/
def checkMin (thresh : Option (Option ℚ)) (raw : String) : Except String Bool :=
  match thresh with
  | some (some m) =>
    if m = 0 then .ok true
    else if raw = "" then .ok true
    else
      match pyFloat raw with
      | some v => if v < m then .ok false else .ok true
      | none => .error (floatError raw)
  | _ => .ok true

/-- The upper-bound check of `_meets_criteria` (max drawdown): reject
when the parsed value exceeds the threshold. -/
def checkMax (thresh : Option (Option ℚ)) (raw : String) : Except String Bool :=
  match thresh with
  | some (some m) =>
    if m = 0 then .ok true
    else if raw = "" then .ok true
    else
      match pyFloat raw with
      | some v => if m < v then .ok false else .ok true
      | none => .error (floatError raw)
  | _ => .ok true

/-- `MultiSourceScraper._meets_criteria`: the four checks run in source
order with Python's early `return False`; an uncaught `ValueError` from
`float` aborts evaluation (`Except.error`). -/
def meets_criteria (c : Criteria) (s : StrategyRecord) : Except String Bool :=
  match checkMin c.minCAGR s.claimedCAGR with
  | .error e => .error e
  | .ok false => .ok false
  | .ok true =>
    match checkMin c.minSharpe s.claimedSharpe with
    | .error e => .error e
    | .ok false => .ok false
    | .ok true =>
      match checkMax c.maxDrawdown s.claimedMaxDrawdown with
      | .error e => .error e
      | .ok false => .ok false
      | .ok true =>
        match checkMin c.minWinRate s.claimedWinRate with
        | .error e => .error e
        | .ok false => .ok false
        | .ok true => .ok true

/-- Case-insensitive match of a literal keyword at the head of a
character list; returns the remainder on success. -/
def matchKeyword : List Char → List Char → Option (List Char)
  | [], rest => some rest
  | _ :: _, [] => none
  | k :: ks, c :: cs => if k.toLower == c.toLower then matchKeyword ks cs else none

/-- Characters matched by the `[:\s]` class of `_extract_metric`'s
patterns. -/
def isSepChar (c : Char) : Bool :=
  c == ':' || isPySpace c

/-- Characters matched by the `[0-9.]` capture class. -/
def isDigitDot (c : Char) : Bool :=
  c.isDigit || c == '.'

/-- `re.search` of the pattern `KW[:\s]+([0-9.]+)%?` (case-insensitive)
over a character list: leftmost keyword occurrence followed by at least
one separator and at least one `[0-9.]` character; returns the maximal
captured digit run.  The separator and capture classes are disjoint, so
the greedy runs need no backtracking. -/
def extractFrom (kw : List Char) : List Char → Option String
  | [] => none
  | c :: cs =>
    match matchKeyword kw (c :: cs) with
    | some rest =>
      let (seps, rest2) := takeRun isSepChar rest
      if seps = [] then extractFrom kw cs
      else
        let (digs, _) := takeRun isDigitDot rest2
        if digs = [] then extractFrom kw cs
        else some (String.mk digs)
    | none => extractFrom kw cs

/-- `MultiSourceScraper._extract_metric`: regex search for the metric's
pattern; the captured group on a match, `''` otherwise (also for an
unrecognized metric name). -/
def extract_metric (text metric : String) : String :=
  let kw : Option (List Char) :=
    match lowerStr metric with
    | "cagr" => some "CAGR".toList
    | "sharpe" => some "Sharpe".toList
    | "win rate" => some "Win Rate".toList
    | "drawdown" => some "Drawdown".toList
    | _ => none
  match kw with
  | some k => (extractFrom k text.toList).getD ""
  | none => ""

/-- Is `pat` a leading segment of `s`? -/
def isHeadSeg : List Char → List Char → Bool
  | [], _ => true
  | _ :: _, [] => false
  | a :: as, b :: bs => a == b && isHeadSeg as bs

/-- Is `pat` a contiguous segment of `s`? -/
def isSeg (pat : List Char) : List Char → Bool
  | [] => pat.isEmpty
  | c :: rest => isHeadSeg pat (c :: rest) || isSeg pat rest

/-- Python `pat in text.lower()` for a lowercase literal `pat`. -/
def inLower (text pat : String) : Bool :=
  isSeg pat.toList (lowerStr text).toList

/-- The candidate strategy types of `_extract_strategy_type`. -/
def strategyTypes : List String :=
  ["Iron Condor", "Iron Butterfly", "Scalping", "Trend Following",
   "Mean Reversion", "Breakout", "Wheel", "Credit Spread", "Strangle"]

/-- `MultiSourceScraper._extract_strategy_type`: the first listed type
whose lowercasing occurs in the lowercased text, else `'Unknown'`. -/
def extract_strategy_type (text : String) : String :=
  (strategyTypes.find? (fun t => inLower text (lowerStr t))).getD "Unknown"

/-- `MultiSourceScraper._extract_asset_class`. -/
def extract_asset_class (text : String) : String :=
  if ["option", "call", "put", "condor", "butterfly"].any (inLower text) then "Options"
  else if ["forex", "eur/usd", "gbp/usd"].any (inLower text) then "Forex"
  else if ["crypto", "bitcoin", "ethereum"].any (inLower text) then "Crypto"
  else if ["cfd", "contract for difference"].any (inLower text) then "CFD"
  else "Stocks"

/-- `MultiSourceScraper._extract_market_regime`. -/
def extract_market_regime (text : String) : String :=
  if inLower text "bull" then "Bull Market"
  else if inLower text "bear" then "Bear Market"
  else if inLower text "range" then "Range-bound"
  else "All Regimes"

/-- `MultiSourceScraper._extract_trading_hours`. -/
def extract_trading_hours (text : String) : String :=
  if inLower text "day" then "Day Trading"
  else if inLower text "swing" then "Swing Trading"
  else if inLower text "position" then "Position Trading"
  else "All Hours"

/-- Regex word characters (`\w`): letters, digits, underscore. -/
def isWordChar (c : Char) : Bool :=
  c.isAlpha || c.isDigit || c == '_'

/-- Uppercase ASCII letter (the `[A-Z]` class). -/
def isUpperAZ (c : Char) : Bool :=
  'A' ≤ c && c ≤ 'Z'

/-- Split a character list into its maximal runs of word characters
(the accumulator holds the current run reversed). -/
def wordRunsAux : List Char → List Char → List (List Char)
  | [], cur => if cur.isEmpty then [] else [cur.reverse]
  | c :: rest, cur =>
    if isWordChar c then wordRunsAux rest (c :: cur)
    else if cur.isEmpty then wordRunsAux rest []
    else cur.reverse :: wordRunsAux rest []

/-- All maximal word-character runs of a character list. -/
def wordRuns (l : List Char) : List (List Char) :=
  wordRunsAux l []

/-- The words excluded in `_extract_tickers`. -/
def commonWords : List String :=
  ["THE", "AND", "FOR", "WITH", "FROM", "THIS", "THAT", "WHICH", "THESE"]

/-- `re.findall(r'\b[A-Z]\x7b1,5\x7d\b', text)`: a match is exactly a
maximal word-character run made of 1 to 5 uppercase ASCII letters (an
adjacent word character on either side breaks the `\b` boundary, and a
longer or mixed run cannot satisfy both boundaries). -/
def tickerMatches (text : String) : List String :=
  ((wordRuns text.toList).filter
    (fun r => r.length ≤ 5 && r.all isUpperAZ)).map String.mk

/-- `MultiSourceScraper._extract_tickers`: keep matches outside the
common-word list, join the first five with `', '`, `''` when none. -/
def extract_tickers (text : String) : String :=
  let tickers := (tickerMatches text).filter (fun m => !(commonWords.contains m))
  if tickers.isEmpty then "" else String.intercalate ", " (tickers.take 5)

/-- One raw item of the YouTube search response (the parts of
`item['snippet']` / `item['id']` the loop reads). -/
structure Item where
  title : String
  videoId : String
  channelTitle : String
  description : String
deriving DecidableEq

/-- The record literal built for one item in `scrape_youtube`; `prev` is
`len(strategies)` at that point. -/
def buildVideo (prev : ℕ) (it : Item) : StrategyRecord where
  no := prev + 1
  strategyName := it.title
  link := "https://www.youtube.com/watch?v=" ++ it.videoId
  channel := it.channelTitle
  strategyType := extract_strategy_type it.title
  assetClass := extract_asset_class it.title
  specificTickers := extract_tickers it.description
  marketRegime := extract_market_regime it.description
  tradingHours := extract_trading_hours it.description
  claimedWinRate := extract_metric it.description "win rate"
  claimedCAGR := extract_metric it.description "cagr"
  claimedMaxDrawdown := extract_metric it.description "drawdown"
  claimedSharpe := extract_metric it.description "sharpe"
  description := it.description
  status := "Pending Claude"
  passToClaude := "Y"

/-- The item loop of `scrape_youtube`: build each record, keep it when
`_meets_criteria` accepts; an exception anywhere propagates out of the
loop (it is caught only by the adapter-level `except`). -/
def youtubeLoop (c : Criteria) : List Item → List StrategyRecord →
    Except String (List StrategyRecord)
  | [], acc => .ok acc
  | it :: rest, acc =>
    let video := buildVideo acc.length it
    match meets_criteria c video with
    | .error e => .error e
    | .ok true => youtubeLoop c rest (acc ++ [video])
    | .ok false => youtubeLoop c rest acc

/-- `MultiSourceScraper.scrape_youtube`, parametrized by the search
response's item list (the network call is an external collaborator):
returns `[]` when disabled, and `[]` when any exception escapes the item
loop (the whole adapter's `try` block is one `except` scope). -/
def scrape_youtube (c : Criteria) (items : List Item) : List StrategyRecord :=
  if c.youtubeEnabled.getD true then
    match youtubeLoop c items [] with
    | .ok l => l
    | .error _ => []
  else []

/-- The renumbering pass of `scrape_all`
(`for idx, strategy in enumerate(all_strategies): strategy['No'] = idx + 1`),
started at index `n`. -/
def renumber (n : ℕ) : List StrategyRecord → List StrategyRecord
  | [] => []
  | s :: rest => { s with no := n + 1 } :: renumber (n + 1) rest

/-- `MultiSourceScraper.scrape_all`, parametrized by the three adapter
result lists in the source's fixed order (YouTube, Option Alpha,
QuantConnect): concatenate, then renumber by final position. -/
def scrape_all (youtube oa qc : List StrategyRecord) : List StrategyRecord :=
  renumber 0 (youtube ++ oa ++ qc)

/-- The method and instance-attribute names of the `MultiSourceScraper`
class, read off its definition. -/
def multiSourceScraperAttrs : List String :=
  ["__init__", "criteria", "strategies",
   "scrape_youtube", "scrape_option_alpha", "scrape_quantconnect",
   "_meets_criteria", "_extract_strategy_type", "_extract_asset_class",
   "_extract_tickers", "_extract_market_regime", "_extract_trading_hours",
   "_extract_metric", "scrape_all"]

/-- The HTTP response of the `/scrape` endpoint: status code, the JSON
body's `status` field, and whether a `strategies` array is present. -/
structure HttpResponse where
  code : ℕ
  bodyStatus : String
  hasStrategies : Bool
deriving DecidableEq

/-- The `/scrape` handler of `n8n_wrapper.py`: 400 without a truthy JSON
body, 400 without a truthy `youtube_api_key`; otherwise the handler
evaluates `scraper.run_all(...)`, whose attribute lookup on
`MultiSourceScraper` either succeeds (success branch) or raises an
`AttributeError` that the blanket `except` turns into a 500 error
response. -/
def scrape_handler (dataTruthy : Bool) (apiKey : Option String) : HttpResponse :=
  if !dataTruthy then ⟨400, "error", false⟩
  else
    let keyTruthy : Bool :=
      match apiKey with
      | some k => k ≠ ""
      | none => false
    if !keyTruthy then ⟨400, "error", false⟩
    else if multiSourceScraperAttrs.contains "run_all" then ⟨200, "success", true⟩
    else ⟨500, "error", false⟩

/-- Split a character list at every comma (the segments between commas,
empty segments included). -/
def splitCommas : List Char → List (List Char)
  | [] => [[]]
  | c :: rest =>
    if c == ',' then [] :: splitCommas rest
    else
      match splitCommas rest with
      | h :: t => (c :: h) :: t
      | [] => [[c]]

/-- Modelled from the spec: the spec's description of string-list
parsing (split the raw value on commas, trim whitespace from each
segment, drop empty segments, keep order, no deduplication).  The source
has no such step; this definition exists only to compare the claim's
wording with the code's behaviour. -/
def spec_string_list (raw : String) : List String :=
  ((splitCommas raw.toList).map (fun seg => String.mk (stripChars seg))).filter
    (fun seg => seg ≠ "")

/-! ## Shared lemmas about the filter checks -/

/-- A lower-bound check is skipped on an empty record string. -/
theorem checkMin_empty (t : Option (Option ℚ)) : checkMin t "" = .ok true := by
  rcases t with _ | (_ | m) <;> simp [checkMin]

/-- The drawdown check is skipped on an empty record string. -/
theorem checkMax_empty (t : Option (Option ℚ)) : checkMax t "" = .ok true := by
  rcases t with _ | (_ | m) <;> simp [checkMax]

/-- An absent threshold entry skips its lower-bound check. -/
theorem checkMin_none (raw : String) : checkMin none raw = .ok true := rfl

/-- An absent threshold entry skips the drawdown check. -/
theorem checkMax_none (raw : String) : checkMax none raw = .ok true := rfl

/-- A zero threshold is falsy in Python, so its lower-bound check is
skipped. -/
theorem checkMin_zero (raw : String) : checkMin (some (some 0)) raw = .ok true := by
  simp [checkMin]

/-- A zero threshold is falsy in Python, so the drawdown check is
skipped. -/
theorem checkMax_zero (raw : String) : checkMax (some (some 0)) raw = .ok true := by
  simp [checkMax]

/-! ## Fixed concrete inputs used in counterexamples and witnesses -/

/-- Criteria with a minimum-CAGR threshold of 30 and nothing else. -/
def cagr30 : Criteria := { emptyCriteria with minCAGR := some (some 30) }

/-- A record with every performance field absent (empty string). -/
def noEvidenceRecord : StrategyRecord :=
  ⟨1, "Some video", "https://example.com", "chan", "Unknown", "Stocks", "",
   "All Regimes", "All Hours", "", "", "", "", "no numbers here",
   "Pending Claude", "Y"⟩

/-- A record whose claimed CAGR is a non-empty string that fails the
`float` parse. -/
def badCagrRecord : StrategyRecord :=
  ⟨1, "Some video", "https://example.com", "chan", "Unknown", "Stocks", "",
   "All Regimes", "All Hours", "", "1.2.3", "", "", "CAGR: 1.2.3",
   "Pending Claude", "Y"⟩

/-! ## C1 -/

/-- C1 counterexample: the claim says a record with every performance
field absent is rejected by `_meets_criteria` for every criteria value;
in the code every per-metric check is skipped when the record's string
is empty, so this all-absent record is accepted (`.ok true`) even under
a criteria with a CAGR threshold set. -/
theorem C1_counterexample : meets_criteria cagr30 noEvidenceRecord = .ok true := by
  rfl

/-- C1 (amended): for every `StrategyRecord` in which every performance
field is absent, `_meets_criteria` accepts the record, for every
`Criteria` value — all four checks are skip-on-absent and there is no
all-absent rejection rule. -/
theorem C1_accepts_all_absent (c : Criteria) (s : StrategyRecord)
    (h1 : s.claimedCAGR = "") (h2 : s.claimedSharpe = "")
    (h3 : s.claimedMaxDrawdown = "") (h4 : s.claimedWinRate = "") :
    meets_criteria c s = .ok true := by
  simp [meets_criteria, h1, h2, h3, h4, checkMin_empty, checkMax_empty]

/-- C1 witness: the amended theorem evaluated on a concrete all-absent
record and a concrete criteria. -/
theorem C1_witness :
    noEvidenceRecord.claimedCAGR = "" ∧
    meets_criteria cagr30 noEvidenceRecord = .ok true :=
  ⟨rfl, C1_accepts_all_absent cagr30 noEvidenceRecord rfl rfl rfl rfl⟩

/-! ## C2 -/

/-- C2: when only the minimum-CAGR threshold is set and the record's
claimed CAGR parses to a value at least that threshold while the other
performance fields are absent, `_meets_criteria` accepts the record
(the Sharpe, drawdown and win-rate checks are skipped on absent
fields). -/
theorem C2_cagr_only_accepted (c : Criteria) (m v : ℚ) (s : StrategyRecord)
    (hc : c.minCAGR = some (some m)) (hsh : c.minSharpe = none)
    (hdd : c.maxDrawdown = none) (hwr : c.minWinRate = none)
    (hv : pyFloat s.claimedCAGR = some v) (hm : m ≤ v)
    (h2 : s.claimedSharpe = "") (h3 : s.claimedMaxDrawdown = "")
    (h4 : s.claimedWinRate = "") :
    meets_criteria c s = .ok true := by
  have hlt : ¬ v < m := not_lt.mpr hm
  by_cases hm0 : m = 0
  · simp [meets_criteria, checkMin, hc, hsh, hdd, hwr, hm0, h2, h3, h4,
      checkMin_empty, checkMax_empty]
  · by_cases hraw : s.claimedCAGR = ""
    · simp [meets_criteria, checkMin, hc, hsh, hdd, hwr, hm0, hraw, h2, h3, h4,
        checkMin_empty, checkMax_empty]
    · simp [meets_criteria, checkMin, hc, hsh, hdd, hwr, hm0, hraw, hv, hlt,
        h2, h3, h4, checkMin_empty, checkMax_empty]

/-- C2 witness: criteria `min CAGR = 30`, record CAGR string `"50"`,
everything else absent: accepted. -/
theorem C2_witness :
    pyFloat "50" = some 50 ∧ (30 : ℚ) ≤ 50 ∧
    meets_criteria cagr30
      ⟨1, "n", "l", "c", "Unknown", "Stocks", "", "All Regimes", "All Hours",
       "", "50", "", "", "d", "Pending Claude", "Y"⟩ = .ok true :=
  ⟨by decide, by norm_num,
   C2_cagr_only_accepted cagr30 30 50 _ rfl rfl rfl rfl (by decide) (by norm_num)
     rfl rfl rfl⟩

/-! ## C3 -/

/-- C3 counterexample: the claim says evaluating the filter never
raises because unparsable present values are coerced to absent; in the
code `_meets_criteria` feeds the non-empty string `"1.2.3"` (producible
by `_extract_metric`, whose capture class `[0-9.]+` admits it) straight
into `float`, which raises — modelled as `Except.error`. -/
theorem C3_counterexample :
    meets_criteria cagr30 badCagrRecord = .error (floatError "1.2.3") := by
  rfl

/-- C3 (amended): with a truthy CAGR threshold set, a record whose
claimed-CAGR string is present (non-empty) but fails the numeric parse
makes `_meets_criteria` raise a `ValueError` (propagated out of the
filter; it is caught only by the adapter-level handler). -/
theorem C3_raises_on_unparsable (c : Criteria) (s : StrategyRecord) (m : ℚ)
    (hc : c.minCAGR = some (some m)) (hm : m ≠ 0)
    (hraw : s.claimedCAGR ≠ "") (hp : pyFloat s.claimedCAGR = none) :
    meets_criteria c s = .error (floatError s.claimedCAGR) := by
  simp [meets_criteria, checkMin, hc, hm, hraw, hp]

/-- C3 witness: the amended theorem evaluated on the concrete record
with claimed CAGR `"1.2.3"` under the CAGR-30 criteria. -/
theorem C3_witness :
    pyFloat "1.2.3" = none ∧
    meets_criteria cagr30 badCagrRecord = .error (floatError "1.2.3") :=
  ⟨by decide,
   C3_raises_on_unparsable cagr30 badCagrRecord 30 rfl (by norm_num)
     (by decide) (by decide)⟩

/-! ## Shared lemmas about the validator checks -/

/-- A present, truthy threshold outside `[0, hi]` yields its message. -/
theorem vcheck_out (q hi : ℚ) (msg : String) (h0 : q ≠ 0) (h : q < 0 ∨ hi < q) :
    vcheck (some (some q)) hi msg = [msg] := by
  simp only [vcheck]
  rw [if_pos h0, if_pos h]

/-- An absent entry is never checked. -/
theorem vcheck_none (hi : ℚ) (msg : String) : vcheck none hi msg = [] := rfl

/-- A zero entry is falsy in Python and is never range-checked. -/
theorem vcheck_zero (hi : ℚ) (msg : String) : vcheck (some (some 0)) hi msg = [] := by
  simp [vcheck]

/-- The year checks are skipped when the start-year key is absent. -/
theorem ycheck_none_left (e : Option (Option ℚ)) : ycheck none e = [] := by
  rcases e with _ | (_ | eq) <;> rfl

/-- The year checks are skipped when the end-year key is absent. -/
theorem ycheck_none_right (s : Option (Option ℚ)) : ycheck s none = [] := by
  rcases s with _ | (_ | sq) <;> rfl

/-- The year checks are skipped when the start year is `0.0` (falsy). -/
theorem ycheck_zero_left (e : Option (Option ℚ)) : ycheck (some (some 0)) e = [] := by
  rcases e with _ | (_ | eq) <;> simp [ycheck]

/-- The year checks are skipped when the end year is `0.0` (falsy). -/
theorem ycheck_zero_right (s : Option (Option ℚ)) : ycheck s (some (some 0)) = [] := by
  rcases s with _ | (_ | sq) <;> simp [ycheck]

/-! ## C4 -/

/-- C4 counterexample: the claim says a start year below 1990 is
reported even when the end-year field is absent; in the code the year
checks run only when both year keys are present and truthy, so a
criteria with start year 1980 and no end year validates cleanly. -/
theorem C4_counterexample :
    validate_criteria { emptyCriteria with backtestStartYear := some (some 1980) } =
      (true, []) := by
  rfl

/-- C4 (amended): each of the five threshold fields, when present with
a nonzero value outside its documented domain and all other fields
absent, makes `validate_criteria` return `valid = false` with exactly
the one violation message naming that field.  The year bounds are
checked only when both year fields are present and truthy: then an
out-of-range year (with the ordering satisfied) yields the single
shared years message, while a start year below 1990 with the end year
absent yields no violation at all. -/
theorem C4_domain_violations :
    (∀ q : ℚ, q < 0 ∨ 500 < q →
      validate_criteria { emptyCriteria with minCAGR := some (some q) } =
        (false, ["Min CAGR (%) should be between 0 and 500"])) ∧
    (∀ q : ℚ, q < 0 ∨ 10 < q →
      validate_criteria { emptyCriteria with minSharpe := some (some q) } =
        (false, ["Min Sharpe should be between 0 and 10"])) ∧
    (∀ q : ℚ, q < 0 ∨ 100 < q →
      validate_criteria { emptyCriteria with maxDrawdown := some (some q) } =
        (false, ["Max Drawdown (%) should be between 0 and 100"])) ∧
    (∀ q : ℚ, q < 0 ∨ 100 < q →
      validate_criteria { emptyCriteria with minWinRate := some (some q) } =
        (false, ["Min Win Rate (%) should be between 0 and 100"])) ∧
    (∀ q : ℚ, q < 0 ∨ 10000 < q →
      validate_criteria { emptyCriteria with minTradesPerYear := some (some q) } =
        (false, ["Min Trades Per Year should be between 0 and 10000"])) ∧
    (∀ sq eq : ℚ, sq ≠ 0 → eq ≠ 0 → sq < eq → sq < 1990 ∨ 2030 < eq →
      validate_criteria { emptyCriteria with backtestStartYear := some (some sq), backtestEndYear := some (some eq) } =
        (false, ["Backtest years should be between 1990 and 2030"])) ∧
    (∀ sq : ℚ, sq < 1990 →
      validate_criteria { emptyCriteria with backtestStartYear := some (some sq) } =
        (true, [])) := by
  have hne : ∀ (q lo : ℚ), 0 ≤ lo → q < 0 ∨ lo < q → q ≠ 0 := by
    intro q lo hlo h h0
    subst h0
    rcases h with h | h
    · exact absurd h (by norm_num)
    · exact absurd (lt_of_le_of_lt hlo h) (by norm_num)
  refine ⟨?_, ?_, ?_, ?_, ?_, ?_, ?_⟩
  · intro q h
    simp [validate_criteria, emptyCriteria, vcheck_out q 500 _ (hne q 500 (by norm_num) h) h,
      vcheck_none, ycheck_none_left]
  · intro q h
    simp [validate_criteria, emptyCriteria, vcheck_out q 10 _ (hne q 10 (by norm_num) h) h,
      vcheck_none, ycheck_none_left]
  · intro q h
    simp [validate_criteria, emptyCriteria, vcheck_out q 100 _ (hne q 100 (by norm_num) h) h,
      vcheck_none, ycheck_none_left]
  · intro q h
    simp [validate_criteria, emptyCriteria, vcheck_out q 100 _ (hne q 100 (by norm_num) h) h,
      vcheck_none, ycheck_none_left]
  · intro q h
    simp [validate_criteria, emptyCriteria, vcheck_out q 10000 _ (hne q 10000 (by norm_num) h) h,
      vcheck_none, ycheck_none_left]
  · intro sq eq hs0 he0 hlt hout
    have hy : ycheck (some (some sq)) (some (some eq)) =
        ["Backtest years should be between 1990 and 2030"] := by
      simp only [ycheck]
      rw [if_pos ⟨hs0, he0⟩, if_neg (not_le.mpr hlt), if_pos hout]
      rfl
    simp [validate_criteria, emptyCriteria, vcheck_none, hy]
  · intro sq hsq
    simp [validate_criteria, emptyCriteria, vcheck_none, ycheck_none_right]

/-- C4 witness: a min CAGR of 600 yields exactly its one message; a
start year of 1980 with no end year yields no violation. -/
theorem C4_witness :
    ((600 : ℚ) < 0 ∨ 500 < (600 : ℚ)) ∧
    validate_criteria { emptyCriteria with minCAGR := some (some 600) } =
      (false, ["Min CAGR (%) should be between 0 and 500"]) ∧
    ((1980 : ℚ) < 1990) ∧
    validate_criteria { emptyCriteria with backtestStartYear := some (some 1980) } =
      (true, []) :=
  ⟨Or.inr (by norm_num), C4_domain_violations.1 600 (Or.inr (by norm_num)),
   by norm_num, C4_domain_violations.2.2.2.2.2.2 1980 (by norm_num)⟩

/-! ## C5 -/

/-- C5: `parse_criteria` is total, and every recognized numeric field
whose raw value is present but fails the `float` parse is stored as
present-with-`None` (`some none`), never as a number: the `ValueError`
is caught inside the parser. -/
theorem C5_malformed_numeric_becomes_absent (settings : String → Option String)
    (nm s : String) (hmem : nm ∈ numericFieldNames)
    (hs : settings nm = some s) (hp : pyFloat s = none) :
    numField (parse_criteria settings) nm = some none := by
  simp only [numericFieldNames, List.mem_cons, List.not_mem_nil, or_false] at hmem
  rcases hmem with rfl | rfl | rfl | rfl | rfl | rfl | rfl <;>
    simp [numField, parse_criteria, hs, hp]

/-- Concrete settings whose every numeric field holds unparsable text. -/
def badSettings : String → Option String := fun nm =>
  if nm ∈ numericFieldNames then some "oops" else none

/-- C5 witness: the theorem evaluated on `badSettings` at the
`'Min CAGR (%)'` key. -/
theorem C5_witness :
    "Min CAGR (%)" ∈ numericFieldNames ∧
    badSettings "Min CAGR (%)" = some "oops" ∧ pyFloat "oops" = none ∧
    numField (parse_criteria badSettings) "Min CAGR (%)" = some none :=
  ⟨by decide, by rfl, by decide,
   C5_malformed_numeric_becomes_absent badSettings "Min CAGR (%)" "oops"
     (by decide) (by rfl) (by decide)⟩

/-! ## C6 -/

/-- Concrete settings with a raw keywords value containing untrimmed
whitespace and an empty segment. -/
def keywordSettings : String → Option String := fun nm =>
  if nm = "YouTube Keywords" then some " a ,, b " else none

/-- C6 counterexample: the claim says `parse_criteria` produces the
split-trimmed-filtered sequence for string-list fields; the code stores
the raw string verbatim — the stored value is `" a ,, b "` itself,
which is not the rendering of the claimed sequence `["a", "b"]` under
either comma join, i.e. no splitting, trimming or dropping happened. -/
theorem C6_counterexample :
    (parse_criteria keywordSettings).youtubeKeywords = some " a ,, b " ∧
    spec_string_list " a ,, b " = ["a", "b"] ∧
    " a ,, b " ≠ String.intercalate "," (spec_string_list " a ,, b ") ∧
    " a ,, b " ≠ String.intercalate ", " (spec_string_list " a ,, b ") :=
  ⟨rfl, by decide, by decide, by decide⟩

/-- C6 (amended): `parse_criteria` stores every recognized string field
verbatim: the raw value is kept unchanged, with no comma-splitting,
whitespace-trimming or empty-segment dropping and no sequence built. -/
theorem C6_string_fields_verbatim (settings : String → Option String)
    (nm raw : String) (hmem : nm ∈ stringFieldNames)
    (hs : settings nm = some raw) :
    strField (parse_criteria settings) nm = some raw := by
  simp only [stringFieldNames, List.mem_cons, List.not_mem_nil, or_false] at hmem
  rcases hmem with rfl | rfl | rfl | rfl <;> simp [strField, parse_criteria, hs]

/-- C6 witness: the amended theorem evaluated on the concrete keywords
value `" a ,, b "`. -/
theorem C6_witness :
    "YouTube Keywords" ∈ stringFieldNames ∧
    keywordSettings "YouTube Keywords" = some " a ,, b " ∧
    strField (parse_criteria keywordSettings) "YouTube Keywords" = some " a ,, b " :=
  ⟨by decide, by rfl,
   C6_string_fields_verbatim keywordSettings "YouTube Keywords" " a ,, b "
     (by decide) (by rfl)⟩

/-! ## C7 -/

/-- An item whose description yields a parsable CAGR above 30: accepted
on its own. -/
def goodItem : Item :=
  ⟨"Iron Condor setup", "vid1", "chanA", "Backtest CAGR: 50"⟩

/-- An item whose description yields the `_extract_metric` capture
`"1.2.3"`, on which the filter's `float` call raises. -/
def badItem : Item :=
  ⟨"Wheel strategy", "vid2", "chanB", "CAGR: 1.2.3"⟩

/-- C7 counterexample: the claim says a failure on one item drops only
that item; in the code the whole item loop sits in one adapter-level
`try`, so the exception raised on the second item makes
`scrape_youtube` return `[]`, dropping the first item even though it
was already accepted (it is the sole output when scraped alone). -/
theorem C7_counterexample :
    scrape_youtube cagr30 [goodItem, badItem] = [] ∧
    scrape_youtube cagr30 [goodItem] = [buildVideo 0 goodItem] :=
  ⟨by decide, by decide⟩

/-- C7 (amended): a failure while processing any single item aborts the
whole adapter batch: whenever the item loop raises, `scrape_youtube`
returns the empty list, dropping every item of that adapter including
previously accepted ones (error containment is per adapter, not per
item; `scrape_all` still proceeds with the other adapters' lists). -/
theorem C7_item_failure_empties_adapter (c : Criteria) (items : List Item)
    (e : String) (h : youtubeLoop c items [] = .error e) :
    scrape_youtube c items = [] := by
  unfold scrape_youtube
  rw [h]
  simp

/-- C7 witness: the amended theorem evaluated on the two-item run whose
second item raises. -/
theorem C7_witness :
    youtubeLoop cagr30 [goodItem, badItem] [] = .error (floatError "1.2.3") ∧
    scrape_youtube cagr30 [goodItem, badItem] = [] :=
  ⟨by rfl,
   C7_item_failure_empties_adapter cagr30 [goodItem, badItem]
     (floatError "1.2.3") (by rfl)⟩

/-! ## C8 -/

/-- `renumber` preserves length. -/
theorem length_renumber (n : ℕ) (l : List StrategyRecord) :
    (renumber n l).length = l.length := by
  induction l generalizing n with
  | nil => rfl
  | cons s rest ih => simp [renumber, ih]

/-- Element `i` of `renumber n l` is element `i` of `l` with its `No`
field set to `n + i + 1`. -/
theorem getElem?_renumber (n : ℕ) (l : List StrategyRecord) (i : ℕ) :
    (renumber n l)[i]? = (l[i]?).map (fun s => { s with no := n + i + 1 }) := by
  induction l generalizing n i with
  | nil => simp [renumber]
  | cons s rest ih =>
    cases i with
    | zero => simp [renumber]
    | succ j =>
      have harith : n + 1 + j + 1 = n + (j + 1) + 1 := by omega
      simp only [renumber, List.getElem?_cons_succ, ih (n + 1) j, harith]

/-- C8: `scrape_all` on adapter result lists `ys`, `oa`, `qc` (in the
fixed YouTube, Option Alpha, QuantConnect order) returns exactly
`ys.length + oa.length + qc.length` records; record `i` (0-based) is
record `i` of the concatenation `ys ++ oa ++ qc` — each list's internal
order and the priority order preserved — with its `No` field overwritten
by the 1-based final position `i + 1`, regardless of any per-source
numbering. -/
theorem C8_scrape_all_concat_renumber (ys oa qc : List StrategyRecord) :
    (scrape_all ys oa qc).length = ys.length + oa.length + qc.length ∧
    ∀ i : ℕ, (scrape_all ys oa qc)[i]? =
      ((ys ++ oa ++ qc)[i]?).map (fun s => { s with no := i + 1 }) := by
  constructor
  · simp only [scrape_all, length_renumber, List.length_append]
  · intro i
    rw [scrape_all, getElem?_renumber]
    simp

/-! ## C9 -/

/-- C9: the `/scrape` handler of `n8n_wrapper.py` invokes
`scraper.run_all`, a name absent from `MultiSourceScraper`'s attributes,
so for every request with a truthy JSON body and a non-empty
`youtube_api_key` the raised `AttributeError` is caught by the blanket
handler and the endpoint returns HTTP 500 with status `'error'`; no
input at all can reach the `'success'` branch. -/
theorem C9_run_all_missing_always_500 :
    (∀ k : String, k ≠ "" → scrape_handler true (some k) = ⟨500, "error", false⟩) ∧
    ∀ (d : Bool) (a : Option String), (scrape_handler d a).bodyStatus ≠ "success" := by
  have hattr : "run_all" ∉ multiSourceScraperAttrs := by decide
  constructor
  · intro k hk
    simp [scrape_handler, hk, hattr]
  · intro d a
    cases d with
    | false => simp [scrape_handler]
    | true =>
      cases a with
      | none => simp [scrape_handler]
      | some k =>
        by_cases hk : k = ""
        · simp [scrape_handler, hk]
        · simp [scrape_handler, hk, hattr]

/-- C9 witness: the theorem evaluated at a concrete non-empty API key. -/
theorem C9_witness :
    "key123" ≠ "" ∧
    scrape_handler true (some "key123") = ⟨500, "error", false⟩ :=
  ⟨by decide, C9_run_all_missing_always_500.1 "key123" (by decide)⟩

/-! ## C10 -/

/-- Criteria whose only present entry is a max drawdown of `0.0`. -/
def zeroDrawdownCriteria : Criteria :=
  { emptyCriteria with maxDrawdown := some (some 0) }

/-- C10: a numeric criteria entry present with value `0.0` behaves
exactly like an absent entry, because both the filter and the validator
test the value for truthiness rather than presence: replacing a zero
entry by an absent one changes neither `_meets_criteria` nor
`validate_criteria`, and under a criteria whose only entry is a zero
max drawdown every record is accepted — no domain check and no filter
constraint is applied. -/
theorem C10_zero_threshold_like_absent (c : Criteria) (s : StrategyRecord) :
    meets_criteria { c with minCAGR := some (some 0) } s =
      meets_criteria { c with minCAGR := none } s ∧
    meets_criteria { c with minSharpe := some (some 0) } s =
      meets_criteria { c with minSharpe := none } s ∧
    meets_criteria { c with maxDrawdown := some (some 0) } s =
      meets_criteria { c with maxDrawdown := none } s ∧
    meets_criteria { c with minWinRate := some (some 0) } s =
      meets_criteria { c with minWinRate := none } s ∧
    validate_criteria { c with minCAGR := some (some 0) } =
      validate_criteria { c with minCAGR := none } ∧
    validate_criteria { c with minSharpe := some (some 0) } =
      validate_criteria { c with minSharpe := none } ∧
    validate_criteria { c with maxDrawdown := some (some 0) } =
      validate_criteria { c with maxDrawdown := none } ∧
    validate_criteria { c with minWinRate := some (some 0) } =
      validate_criteria { c with minWinRate := none } ∧
    validate_criteria { c with minTradesPerYear := some (some 0) } =
      validate_criteria { c with minTradesPerYear := none } ∧
    validate_criteria { c with backtestStartYear := some (some 0) } =
      validate_criteria { c with backtestStartYear := none } ∧
    validate_criteria { c with backtestEndYear := some (some 0) } =
      validate_criteria { c with backtestEndYear := none } ∧
    meets_criteria zeroDrawdownCriteria s = .ok true := by
  refine ⟨?_, ?_, ?_, ?_, ?_, ?_, ?_, ?_, ?_, ?_, ?_, ?_⟩ <;>
    simp [meets_criteria, validate_criteria, zeroDrawdownCriteria, emptyCriteria,
      checkMin_zero, checkMax_zero, checkMin_none, checkMax_none,
      vcheck_zero, vcheck_none, ycheck_zero_left, ycheck_zero_right,
      ycheck_none_left, ycheck_none_right]

end TradingScraper
